import Mathlib

/-!
Shallow embedding, over exact rational arithmetic, of the deck.gl animated
particle layer (`src/particle-layer.ts`: the TypeScript host code together
with its embedded GLSL update-transform vertex shader).

* namespace `TS`: the host-side longitude/bounds utilities (`modulo`,
  `wrapLongitude`, `wrapBounds`).  The JavaScript `%` operator truncates
  toward zero, which `jsTrunc`/`jsRem` make explicit.
* namespace `Shader`: the GLSL update transform (`main`) and its helper
  functions; GLSL `mod` is the floor-based one.  The transcendental
  functions (`cos(radians …)` in `updatedPosition`, `sin` in `randFloat`)
  are abstracted as explicit function parameters `cosd` (cosine of an angle
  given in degrees) and `sinq`; texture sampling is abstracted as sampler
  parameters.
* `GLFloat`: rationals extended with an explicit NaN, used to model the
  float semantics of `isNaN`/`rasterHasValues`/`rasterGetValues` faithfully
  (a texel channel of a float texture can be NaN).
* the `Layer…` definitions: the host-side driver (`updateState`,
  `_setupTransformFeedback`, `_runTransformFeedback`,
  `_resetTransformFeedback`, `_deleteTransformFeedback`, `draw`,
  `requestStep`), with runtime exceptions modelled by `Except String`:
  calling a method on a destroyed/undefined GPU resource is the error case.
-/

namespace TS

/-- JavaScript number truncation toward zero (the rounding used by `%`);
written with floors only (`-⌊-x⌋ = ⌈x⌉`). -/
def jsTrunc (x : ℚ) : ℤ :=
  if 0 ≤ x then ⌊x⌋ else -⌊-x⌋

/-- The JavaScript remainder operator `x % y` (sign follows the dividend). -/
def jsRem (x y : ℚ) : ℚ :=
  x - y * (jsTrunc (x / y) : ℚ)

/-- `function modulo(x, y) { return ((x % y) + y) % y; }` -/
def modulo (x y : ℚ) : ℚ :=
  jsRem (jsRem x y + y) y

/-- `export function wrapLongitude(lng, minLng = undefined)`.  The optional
`minLng` argument is modelled by `Option ℚ`; `typeof minLng === "number"`
is the `some` case. -/
def wrapLongitude (lng : ℚ) (minLng : Option ℚ) : ℚ :=
  let wrappedLng := modulo (lng + 180) 360 - 180
  match minLng with
  | some m => if wrappedLng < m then wrappedLng + 360 else wrappedLng
  | none => wrappedLng

/-- `export function wrapBounds(bounds)`; a GeoJSON bbox is the 4-tuple
`(bounds[0], bounds[1], bounds[2], bounds[3])` = (minLng, minLat, maxLng,
maxLat). -/
def wrapBounds : ℚ × ℚ × ℚ × ℚ → ℚ × ℚ × ℚ × ℚ
  | (b0, b1, b2, b3) =>
    let minLng := if b2 - b0 < 360 then wrapLongitude b0 none else -180
    let maxLng := if b2 - b0 < 360 then wrapLongitude b2 (some minLng) else 180
    let minLat := max b1 (-90)
    let maxLat := min b3 90
    (minLng, minLat, maxLng, maxLat)

theorem jsRem_eq_mul (x y : ℚ) (hy : y ≠ 0) :
    jsRem x y = y * (x / y - (jsTrunc (x / y) : ℚ)) := by
  unfold jsRem
  rw [mul_sub, mul_comm y (x / y), div_mul_cancel₀ x hy]

theorem jsRem_bounds (x y : ℚ) (hy : 0 < y) :
    -y < jsRem x y ∧ jsRem x y < y := by
  rw [jsRem_eq_mul x y hy.ne']
  unfold jsTrunc
  split
  · constructor
    · nlinarith [Int.floor_le (x / y)]
    · nlinarith [Int.lt_floor_add_one (x / y)]
  · push_cast
    have h1 : ((⌊-(x / y)⌋ : ℤ) : ℚ) ≤ -(x / y) := Int.floor_le (-(x / y))
    have h2 : -(x / y) < ((⌊-(x / y)⌋ : ℤ) : ℚ) + 1 := Int.lt_floor_add_one (-(x / y))
    constructor
    · nlinarith [mul_pos hy
        (show (0:ℚ) < x / y - -((⌊-(x / y)⌋ : ℤ) : ℚ) + 1 by linarith)]
    · nlinarith [mul_nonneg hy.le
        (show (0:ℚ) ≤ -(x / y - -((⌊-(x / y)⌋ : ℤ) : ℚ)) by linarith)]

theorem jsRem_nonneg_of_nonneg (x y : ℚ) (hy : 0 < y) (hx : 0 ≤ x) :
    0 ≤ jsRem x y := by
  rw [jsRem_eq_mul x y hy.ne']
  have hq : 0 ≤ x / y := div_nonneg hx hy.le
  unfold jsTrunc
  rw [if_pos hq]
  nlinarith [Int.floor_le (x / y)]

theorem modulo_bounds (x y : ℚ) (hy : 0 < y) :
    0 ≤ modulo x y ∧ modulo x y < y := by
  unfold modulo
  have h1 := jsRem_bounds x y hy
  have h2 := jsRem_bounds (jsRem x y + y) y hy
  have h3 := jsRem_nonneg_of_nonneg (jsRem x y + y) y hy (by linarith [h1.1])
  exact ⟨h3, h2.2⟩

theorem wrapLongitude_none_bounds (lng : ℚ) :
    -180 ≤ wrapLongitude lng none ∧ wrapLongitude lng none < 180 := by
  have h := modulo_bounds (lng + 180) 360 (by norm_num)
  constructor
  · show -180 ≤ modulo (lng + 180) 360 - 180
    linarith [h.1]
  · show modulo (lng + 180) 360 - 180 < 180
    linarith [h.2]

end TS

/-- C4 (corrected): the plain wrap of every longitude lies in the half-open
interval [−180, 180) — closed at −180 and open at 180, not the other way
around — and the three concrete examples from the specification hold:
`wrapLongitude(185) = −175`, `wrapLongitude(−185) = 175`,
`wrapLongitude(0) = 0`. -/
theorem c4_wrapLongitude_range (lng : ℚ) :
    (-180 ≤ TS.wrapLongitude lng none ∧ TS.wrapLongitude lng none < 180) ∧
    TS.wrapLongitude 185 none = -175 ∧
    TS.wrapLongitude (-185) none = 175 ∧
    TS.wrapLongitude 0 none = 0 := by
  refine ⟨TS.wrapLongitude_none_bounds lng, ?_, ?_, ?_⟩ <;>
    norm_num [TS.wrapLongitude, TS.modulo, TS.jsRem, TS.jsTrunc]

/-- C4 counterexample: `wrapLongitude(180)` evaluates to −180, which is not
in the claimed interval (−180, 180]; the code wraps onto [−180, 180). -/
theorem c4_counterexample :
    TS.wrapLongitude 180 none = -180 ∧ ¬ (-180 < TS.wrapLongitude 180 none) := by
  have h : TS.wrapLongitude 180 none = -180 := by
    norm_num [TS.wrapLongitude, TS.modulo, TS.jsRem, TS.jsTrunc]
  exact ⟨h, by rw [h]; norm_num⟩

/-- C5 (corrected): whenever `minLng ≤ 180` (which holds for every caller in
the code, where `minLng` is itself a plainly wrapped longitude) and the plain
wrap of `lng` falls below `minLng`, `wrapLongitude(lng, minLng)` returns a
value ≥ `minLng`; and `wrapLongitude(−170, 170) = 190`. -/
theorem c5_wrapLongitude_min (lng minLng : ℚ) (hm : minLng ≤ 180)
    (hlt : TS.wrapLongitude lng none < minLng) :
    minLng ≤ TS.wrapLongitude lng (some minLng) ∧
    TS.wrapLongitude (-170) (some 170) = 190 := by
  constructor
  · have hlow := (TS.wrapLongitude_none_bounds lng).1
    have hlt' : TS.modulo (lng + 180) 360 - 180 < minLng := hlt
    have hlow' : -180 ≤ TS.modulo (lng + 180) 360 - 180 := hlow
    show minLng ≤ if TS.modulo (lng + 180) 360 - 180 < minLng then
        TS.modulo (lng + 180) 360 - 180 + 360 else TS.modulo (lng + 180) 360 - 180
    rw [if_pos hlt']
    linarith
  · norm_num [TS.wrapLongitude, TS.modulo, TS.jsRem, TS.jsTrunc]

theorem c5_witness :
    170 ≤ TS.wrapLongitude (-170) (some 170) :=
  (c5_wrapLongitude_min (-170) 170 (by norm_num)
    (by norm_num [TS.wrapLongitude, TS.modulo, TS.jsRem, TS.jsTrunc])).1

/-- C5 counterexample: with `minLng = 600` the premise of the claim holds
(the plain wrap of −170 is −170 < 600) but the returned value is 190, which
is not ≥ 600 — the claim fails for arbitrary finite `minLng`. -/
theorem c5_counterexample :
    TS.wrapLongitude (-170) none < 600 ∧
    TS.wrapLongitude (-170) (some 600) < 600 := by
  constructor <;> norm_num [TS.wrapLongitude, TS.modulo, TS.jsRem, TS.jsTrunc]

/-- C6 (corrected): `wrapBounds` clamps the lower latitude bound from below
at −90 and the upper latitude bound from above at 90 (each bound is clamped
on one side only, so both bounds lie in [−90, 90] whenever the input lower
latitude is ≤ 90 and the input upper latitude is ≥ −90); the example
`wrapBounds([−10, −95, 10, 95])` has latitude bounds exactly (−90, 90); and
whenever the input longitude span is at least 360 degrees the output
longitude bounds are exactly −180 and 180. -/
theorem c6_wrapBounds (b0 b1 b2 b3 : ℚ) :
    (-90 ≤ (TS.wrapBounds (b0, b1, b2, b3)).2.1) ∧
    ((TS.wrapBounds (b0, b1, b2, b3)).2.2.2 ≤ 90) ∧
    (b1 ≤ 90 → (TS.wrapBounds (b0, b1, b2, b3)).2.1 ≤ 90) ∧
    (-90 ≤ b3 → -90 ≤ (TS.wrapBounds (b0, b1, b2, b3)).2.2.2) ∧
    (360 ≤ b2 - b0 →
      (TS.wrapBounds (b0, b1, b2, b3)).1 = -180 ∧
      (TS.wrapBounds (b0, b1, b2, b3)).2.2.1 = 180) ∧
    ((TS.wrapBounds (-10, -95, 10, 95)).2.1 = -90 ∧
      (TS.wrapBounds (-10, -95, 10, 95)).2.2.2 = 90) := by
  refine ⟨?_, ?_, ?_, ?_, ?_, ?_⟩
  · show -90 ≤ max b1 (-90)
    exact le_max_right b1 (-90)
  · show min b3 90 ≤ 90
    exact min_le_right b3 90
  · intro h
    show max b1 (-90) ≤ 90
    exact max_le h (by norm_num)
  · intro h
    show -90 ≤ min b3 90
    exact le_min h (by norm_num)
  · intro h
    have hspan : ¬ (b2 - b0 < 360) := not_lt.2 h
    constructor
    · show (if b2 - b0 < 360 then TS.wrapLongitude b0 none else -180) = -180
      rw [if_neg hspan]
    · show (if b2 - b0 < 360 then
          TS.wrapLongitude b2
            (some (if b2 - b0 < 360 then TS.wrapLongitude b0 none else -180))
          else 180) = 180
      rw [if_neg hspan]
  · constructor
    · show max (-95 : ℚ) (-90) = -90
      norm_num
    · show min (95 : ℚ) 90 = 90
      norm_num

theorem c6_witness :
    (TS.wrapBounds (-200, 0, 200, 50)).1 = -180 ∧
    (TS.wrapBounds (-200, 0, 200, 50)).2.2.1 = 180 :=
  (c6_wrapBounds (-200) 0 200 50).2.2.2.2.1 (by norm_num)

/-- C6 counterexample: for the input box [0, 95, 10, 96] the output lower
latitude bound is max(95, −90) = 95, which lies outside [−90, 90] — the
lower latitude bound is clamped only from below, not into the interval. -/
theorem c6_counterexample :
    (TS.wrapBounds (0, 95, 10, 96)).2.1 = 95 ∧
    ¬ ((TS.wrapBounds (0, 95, 10, 96)).2.1 ≤ 90) := by
  have h : (TS.wrapBounds (0, 95, 10, 96)).2.1 = 95 := by
    show max (95 : ℚ) (-90) = 95
    norm_num
  exact ⟨h, by rw [h]; norm_num⟩

namespace Shader

/-- GLSL `floor`, landing back in ℚ. -/
def floorQ (x : ℚ) : ℚ := (⌊x⌋ : ℚ)

/-- GLSL `fract(x) = x - floor(x)`. -/
def fract (x : ℚ) : ℚ := x - floorQ x

/-- GLSL `mod(x, y) = x - y * floor(x / y)` (floor-based, unlike JS `%`). -/
def glslMod (x y : ℚ) : ℚ := x - y * floorQ (x / y)

/-- GLSL `clamp`. -/
def clampQ (x minVal maxVal : ℚ) : ℚ := min (max x minVal) maxVal

/-- GLSL `mix(x, y, a) = x*(1-a) + y*a`. -/
def mixQ (x y a : ℚ) : ℚ := x * (1 - a) + y * a

/-- GLSL `smoothstep(edge0, edge1, x)`. -/
def smoothstepQ (edge0 edge1 x : ℚ) : ℚ :=
  let t := clampQ ((x - edge0) / (edge1 - edge0)) 0 1
  t * t * (3 - 2 * t)

/-- `float wrapLongitude(float lng)` from the shader. -/
def wrapLongitude (lng : ℚ) : ℚ := glslMod (lng + 180) 360 - 180

/-- `float wrapLongitude(float lng, float minLng)` (the two-argument GLSL
overload). -/
def wrapLongitudeMin (lng minLng : ℚ) : ℚ :=
  let wrappedLng := wrapLongitude lng
  if wrappedLng < minLng then wrappedLng + 360 else wrappedLng

structure Vec2 where
  x : ℚ
  y : ℚ
  deriving DecidableEq

structure Vec3 where
  x : ℚ
  y : ℚ
  z : ℚ
  deriving DecidableEq

structure Vec4 where
  x : ℚ
  y : ℚ
  z : ℚ
  w : ℚ
  deriving DecidableEq

/-- The `bitmapUniforms` uniform block of the update transform. -/
structure Uniforms where
  numParticles : ℚ
  maxAge : ℚ
  speedFactor : ℚ
  time : ℚ
  seed : ℚ
  viewportBounds : Vec4
  viewportZoomChangeFactor : ℚ
  imageUnscale : Vec2
  bounds : Vec4
  blend : ℚ

/-- GLSL `dot` on vec2. -/
def dot2 (a b : Vec2) : ℚ := a.x * b.x + a.y * b.y

/-- `float randFloat(vec2 seed)`; the transcendental `sin` is the parameter
`sinq`. -/
def randFloat (sinq : ℚ → ℚ) (seed : Vec2) : ℚ :=
  fract (sinq (dot2 seed ⟨12.9898, 78.233⟩) * 43758.5453)

/-- `vec2 randPoint(vec2 seed)`; `seed + c` adds the scalar componentwise. -/
def randPoint (sinq : ℚ → ℚ) (seed : Vec2) : Vec2 :=
  ⟨randFloat sinq ⟨seed.x + 1.3, seed.y + 1.3⟩,
   randFloat sinq ⟨seed.x + 2.1, seed.y + 2.1⟩⟩

/-- `vec2 pointToPosition(vec2 point)`: smoothstep the y ordinate, then mix
into the viewport bounds. -/
def pointToPosition (u : Uniforms) (point : Vec2) : Vec2 :=
  let py := smoothstepQ 0 1 point.y
  ⟨mixQ u.viewportBounds.x u.viewportBounds.z point.x,
   mixQ u.viewportBounds.y u.viewportBounds.w py⟩

/-- `bool isPositionInBounds(vec2 position, vec4 bounds)`. -/
def isPositionInBounds (position : Vec2) (bounds : Vec4) : Prop :=
  let lng := wrapLongitudeMin position.x bounds.x
  let lat := position.y
  bounds.x ≤ lng ∧ lng ≤ bounds.z ∧ bounds.y ≤ lat ∧ lat ≤ bounds.w

instance instDecIsPositionInBounds (position : Vec2) (bounds : Vec4) :
    Decidable (isPositionInBounds position bounds) := by
  unfold isPositionInBounds
  infer_instance

/-- `bool isPositionInViewport(vec2 position)`. -/
def isPositionInViewport (u : Uniforms) (position : Vec2) : Prop :=
  isPositionInBounds position u.viewportBounds

instance instDecIsPositionInViewport (u : Uniforms) (position : Vec2) :
    Decidable (isPositionInViewport u position) := by
  unfold isPositionInViewport
  infer_instance

/-- `vec2 getUV(vec2 pos)`: linear map into texture coordinates, v axis
flipped. -/
def getUV (u : Uniforms) (pos : Vec2) : Vec2 :=
  ⟨(pos.x - u.bounds.x) / (u.bounds.z - u.bounds.x),
   (pos.y - u.bounds.w) / (u.bounds.y - u.bounds.w)⟩

end Shader

/-- A GLSL float that may be NaN; `val q` is an ordinary (finite) value.
Used to give `isNaN`/`rasterHasValues`/`rasterGetValues` their exact float
semantics. -/
inductive GLFloat where
  | nan : GLFloat
  | val : ℚ → GLFloat
  deriving DecidableEq

/-- Float `<=`: any comparison involving NaN is false. -/
def GLFloat.le : GLFloat → GLFloat → Bool
  | .val a, .val b => decide (a ≤ b)
  | _, _ => false

/-- Float addition; NaN propagates. -/
def GLFloat.add : GLFloat → GLFloat → GLFloat
  | .val a, .val b => .val (a + b)
  | _, _ => .nan

/-- Float subtraction; NaN propagates. -/
def GLFloat.sub : GLFloat → GLFloat → GLFloat
  | .val a, .val b => .val (a - b)
  | _, _ => .nan

/-- Float multiplication; NaN propagates (as for GLSL floats, 0 * NaN is
NaN). -/
def GLFloat.mul : GLFloat → GLFloat → GLFloat
  | .val a, .val b => .val (a * b)
  | _, _ => .nan

namespace Shader

/-- `bool isNaN(float value) { return !(value <= 0.f || 0.f <= value); }` -/
def isNaNGL (value : GLFloat) : Bool :=
  !(value.le (.val 0) || (GLFloat.val 0).le value)

/-- GLSL `mix` on NaN-aware floats. -/
def mixGL (x y a : GLFloat) : GLFloat :=
  (x.mul ((GLFloat.val 1).sub a)).add (y.mul a)

/-- An RGBA texel of a (possibly float) texture. -/
structure Texel where
  r : GLFloat
  g : GLFloat
  b : GLFloat
  a : GLFloat
  deriving DecidableEq

/-- `bool rasterHasValues(vec4 values)` on NaN-aware floats.  The uniform
`imageUnscale` is an ordinary vec2 (`imageUnscale[0]` is `.x`,
`imageUnscale[1]` is `.y`). -/
def rasterHasValues (imageUnscale : Vec2) (values : Texel) : Bool :=
  if imageUnscale.x < imageUnscale.y then
    (GLFloat.val 1).le values.a
  else
    !(isNaNGL values.r)

/-- `vec2 rasterGetValues(vec4 colour)` on NaN-aware floats. -/
def rasterGetValues (imageUnscale : Vec2) (colour : Texel) :
    GLFloat × GLFloat :=
  if imageUnscale.x < imageUnscale.y then
    (mixGL (.val imageUnscale.x) (.val imageUnscale.y) colour.r,
     mixGL (.val imageUnscale.x) (.val imageUnscale.y) colour.g)
  else
    (colour.r, colour.g)

/-- `isNaN` restricted to finite floats (the ℚ model used inside `main`,
where a texel is a Vec4 of finite values); identically false, as the code
computes. -/
def isNaNQ (value : ℚ) : Prop := ¬ (value ≤ 0 ∨ 0 ≤ value)

instance instDecIsNaNQ (value : ℚ) : Decidable (isNaNQ value) := by
  unfold isNaNQ
  infer_instance

/-- `rasterHasValues` on finite texels (xyzw = rgba); agrees with the
NaN-aware version on finite texels, see `rasterHasValues_val`. -/
def rasterHasValuesQ (imageUnscale : Vec2) (values : Vec4) : Prop :=
  if imageUnscale.x < imageUnscale.y then
    1 ≤ values.w
  else
    ¬ isNaNQ values.x

instance instDecRasterHasValuesQ (imageUnscale : Vec2) (values : Vec4) :
    Decidable (rasterHasValuesQ imageUnscale values) := by
  unfold rasterHasValuesQ
  infer_instance

/-- `rasterGetValues` on finite texels; agrees with the NaN-aware version on
finite texels, see `rasterGetValues_val`. -/
def rasterGetValuesQ (imageUnscale : Vec2) (colour : Vec4) : Vec2 :=
  if imageUnscale.x < imageUnscale.y then
    ⟨mixQ imageUnscale.x imageUnscale.y colour.x,
     mixQ imageUnscale.x imageUnscale.y colour.y⟩
  else
    ⟨colour.x, colour.y⟩

/-- On finite texels the NaN-aware `rasterHasValues` agrees with the ℚ
version used inside `main`. -/
theorem rasterHasValues_val (iu : Vec2) (r g b a : ℚ) :
    rasterHasValues iu ⟨.val r, .val g, .val b, .val a⟩ = true ↔
      rasterHasValuesQ iu ⟨r, g, b, a⟩ := by
  unfold rasterHasValues rasterHasValuesQ isNaNGL isNaNQ GLFloat.le
  split
  · simp
  · simp [le_total]

/-- On finite texels the NaN-aware `rasterGetValues` agrees with the ℚ
version used inside `main`. -/
theorem rasterGetValues_val (iu : Vec2) (r g b a : ℚ) :
    rasterGetValues iu ⟨.val r, .val g, .val b, .val a⟩ =
      (.val (rasterGetValuesQ iu ⟨r, g, b, a⟩).x,
       .val (rasterGetValuesQ iu ⟨r, g, b, a⟩).y) := by
  unfold rasterGetValues rasterGetValuesQ mixGL mixQ GLFloat.mul GLFloat.sub
    GLFloat.add
  split <;> rfl

/-- `vec2 updatedPosition(vec2 position, vec2 speed)`; `cosd t` models
`cos(radians(t))`. -/
def updatedPosition (cosd : ℚ → ℚ) (position speed : Vec2) : Vec2 :=
  let distortion := cosd position.y
  let offset : Vec2 := ⟨speed.x, speed.y * distortion⟩
  ⟨position.x + offset.x, position.y + offset.y⟩

/-- GLSL `mix(c0, c1, blend)` on vec4, componentwise with a scalar weight. -/
def mix4 (c0 c1 : Vec4) (a : ℚ) : Vec4 :=
  ⟨mixQ c0.x c1.x a, mixQ c0.y c1.y a, mixQ c0.z c1.z a, mixQ c0.w c1.w a⟩

/-- `void main()` of the update transform, for one vertex invocation.
`tex`/`texNext` are the two bound samplers (finite texels); `cosd`/`sinq`
abstract the trigonometric builtins.  `none` models an early return with the
`targetPosition` varying left unassigned (rule 1). -/
def main (cosd sinq : ℚ → ℚ) (u : Uniforms) (tex texNext : Vec2 → Vec4)
    (vertexID : ℕ) (sourcePosition : Vec3) : Option Vec3 :=
  let particleIndex := glslMod (vertexID : ℚ) u.numParticles
  let particleAge := floorQ ((vertexID : ℚ) / u.numParticles)
  if 0 < particleAge then
    none
  else if sourcePosition.x = 0 ∧ sourcePosition.y = 0 then
    let particleSeed : Vec2 :=
      ⟨particleIndex * u.seed / u.numParticles,
       particleIndex * u.seed / u.numParticles⟩
    let point := randPoint sinq particleSeed
    let position := pointToPosition u point
    some ⟨wrapLongitude position.x, position.y, 0⟩
  else if 1 < u.viewportZoomChangeFactor ∧
      1 ≤ glslMod particleIndex u.viewportZoomChangeFactor then
    some ⟨0, 0, 0⟩
  else if |glslMod particleIndex (u.maxAge + 2) -
      glslMod u.time (u.maxAge + 2)| < 1 then
    some ⟨0, 0, 0⟩
  else if ¬ isPositionInBounds ⟨sourcePosition.x, sourcePosition.y⟩ u.bounds then
    some ⟨sourcePosition.x, sourcePosition.y, sourcePosition.z⟩
  else if ¬ isPositionInViewport u ⟨sourcePosition.x, sourcePosition.y⟩ then
    some ⟨0, 0, 0⟩
  else
    let uv := getUV u ⟨sourcePosition.x, sourcePosition.y⟩
    let c0 := tex uv
    let c1 := texNext uv
    let bitmapColour := mix4 c0 c1 u.blend
    if ¬ rasterHasValuesQ u.imageUnscale bitmapColour then
      some ⟨0, 0, 0⟩
    else
      let speed0 := rasterGetValuesQ u.imageUnscale bitmapColour
      let speed : Vec2 := ⟨speed0.x * u.speedFactor, speed0.y * u.speedFactor⟩
      let newPos := updatedPosition cosd ⟨sourcePosition.x, sourcePosition.y⟩ speed
      some ⟨wrapLongitude newPos.x, newPos.y, bitmapColour.z⟩

end Shader

/-- C3 (confirmed): the vector-field decode is dual-mode on the unscale
bounds.  If `imageUnscale[0] < imageUnscale[1]`: a sample is valid exactly
when its alpha channel is a finite value ≥ 1, and the R/G channels are
mapped by the affine map sending the texel range [0,1] onto
[imageUnscale[0], imageUnscale[1]] (`t ↦ u0 + (u1−u0)·t`).  Otherwise the
R/G channels are returned unchanged and a sample is invalid exactly when its
R channel is NaN. -/
theorem c3_dual_mode_decode (u0 u1 : ℚ) (r g b a : GLFloat) :
    (u0 < u1 →
      ((Shader.rasterHasValues ⟨u0, u1⟩ ⟨r, g, b, a⟩ = true ↔
          ∃ q : ℚ, a = .val q ∧ 1 ≤ q) ∧
        (∀ t s : ℚ, r = .val t → g = .val s →
          Shader.rasterGetValues ⟨u0, u1⟩ ⟨r, g, b, a⟩ =
            (.val (u0 + (u1 - u0) * t), .val (u0 + (u1 - u0) * s))))) ∧
    (¬ u0 < u1 →
      (Shader.rasterGetValues ⟨u0, u1⟩ ⟨r, g, b, a⟩ = (r, g) ∧
        (Shader.rasterHasValues ⟨u0, u1⟩ ⟨r, g, b, a⟩ = false ↔
          r = .nan))) := by
  constructor
  · intro h
    constructor
    · cases a with
      | nan => simp [Shader.rasterHasValues, if_pos h, GLFloat.le]
      | val q => simp [Shader.rasterHasValues, if_pos h, GLFloat.le]
    · intro t s ht hs
      subst ht
      subst hs
      simp only [Shader.rasterGetValues, if_pos h, Shader.mixGL, GLFloat.mul,
        GLFloat.sub, GLFloat.add, Prod.mk.injEq, GLFloat.val.injEq]
      constructor <;> ring
  · intro h
    constructor
    · simp [Shader.rasterGetValues, if_neg h]
    · cases r with
      | nan => simp [Shader.rasterHasValues, if_neg h, Shader.isNaNGL, GLFloat.le]
      | val q =>
        rcases le_total q 0 with h0 | h0 <;>
          simp [Shader.rasterHasValues, if_neg h, Shader.isNaNGL, GLFloat.le, h0]

theorem c3_witness :
    Shader.rasterHasValues ⟨0, 2⟩ ⟨.val (1/2), .val (1/4), .val 0, .val 1⟩ = true ∧
    Shader.rasterGetValues ⟨0, 2⟩ ⟨.val (1/2), .val (1/4), .val 0, .val 1⟩ =
      (.val (0 + (2 - 0) * (1/2)), .val (0 + (2 - 0) * (1/4))) :=
  ⟨((c3_dual_mode_decode 0 2 (.val (1/2)) (.val (1/4)) (.val 0) (.val 1)).1
      (by norm_num)).1.mpr ⟨1, rfl, by norm_num⟩,
   ((c3_dual_mode_decode 0 2 (.val (1/2)) (.val (1/4)) (.val 0) (.val 1)).1
      (by norm_num)).2 (1/2) (1/4) rfl rfl⟩

/-- The advect offset as claim C1 words it: the longitude (x) component of
the scaled velocity multiplied by cos(latitude), the latitude component
added unscaled.  This definition follows the specification's words, for
comparison with the code's `Shader.updatedPosition`. -/
def claimedUpdatedPosition (cosd : ℚ → ℚ) (position speed : Shader.Vec2) :
    Shader.Vec2 :=
  ⟨position.x + speed.x * cosd position.y, position.y + speed.y⟩

/-- C1 counterexample: at latitude 60 (where cos(radians 60) = 1/2, supplied
as the concrete `cosd`) and scaled velocity (1, 1), the code moves the
particle to (1, 60.5) — the distortion factor multiplies the latitude
component — while the claim predicts (0.5, 61). -/
theorem c1_counterexample :
    Shader.updatedPosition (fun _ => 1/2) ⟨0, 60⟩ ⟨1, 1⟩ = ⟨1, 121/2⟩ ∧
    claimedUpdatedPosition (fun _ => 1/2) ⟨0, 60⟩ ⟨1, 1⟩ = ⟨1/2, 61⟩ ∧
    Shader.updatedPosition (fun _ => 1/2) ⟨0, 60⟩ ⟨1, 1⟩ ≠
      claimedUpdatedPosition (fun _ => 1/2) ⟨0, 60⟩ ⟨1, 1⟩ := by
  have ha : Shader.updatedPosition (fun _ => 1/2) ⟨0, 60⟩ ⟨1, 1⟩ =
      (⟨1, 121/2⟩ : Shader.Vec2) := by
    norm_num [Shader.updatedPosition, Shader.Vec2.mk.injEq]
  have hb : claimedUpdatedPosition (fun _ => 1/2) ⟨0, 60⟩ ⟨1, 1⟩ =
      (⟨1/2, 61⟩ : Shader.Vec2) := by
    norm_num [claimedUpdatedPosition, Shader.Vec2.mk.injEq]
  refine ⟨ha, hb, ?_⟩
  rw [ha, hb]
  norm_num [Shader.Vec2.mk.injEq]

/-- C1 (corrected): for every particle that reaches the advect rule (rules
1–7 do not fire), the code adds the scaled velocity's longitude (x)
component to the position unscaled, multiplies the latitude (y) component by
cos(latitude of the source position) before adding it, wraps the resulting
longitude, and stores the blended sample's B channel; in particular (see
`c1_witness`) at zero latitude with decoded velocity (0.1, 0) and speed
factor 1 the new position satisfies x' = wrap(x + 0.1) and y' = y. -/
theorem c1_advect_distortion (cosd sinq : ℚ → ℚ) (u : Shader.Uniforms)
    (tex texNext : Shader.Vec2 → Shader.Vec4) (vertexID : ℕ)
    (src : Shader.Vec3) (colour : Shader.Vec4)
    (hAge : ¬ 0 < Shader.floorQ ((vertexID : ℚ) / u.numParticles))
    (hSent : ¬ (src.x = 0 ∧ src.y = 0))
    (hZoom : ¬ (1 < u.viewportZoomChangeFactor ∧
      1 ≤ Shader.glslMod (Shader.glslMod (vertexID : ℚ) u.numParticles)
        u.viewportZoomChangeFactor))
    (hTick : ¬ (|Shader.glslMod (Shader.glslMod (vertexID : ℚ) u.numParticles)
        (u.maxAge + 2) - Shader.glslMod u.time (u.maxAge + 2)| < 1))
    (hDom : Shader.isPositionInBounds ⟨src.x, src.y⟩ u.bounds)
    (hView : Shader.isPositionInViewport u ⟨src.x, src.y⟩)
    (hCol : Shader.mix4 (tex (Shader.getUV u ⟨src.x, src.y⟩))
      (texNext (Shader.getUV u ⟨src.x, src.y⟩)) u.blend = colour)
    (hHas : Shader.rasterHasValuesQ u.imageUnscale colour) :
    Shader.main cosd sinq u tex texNext vertexID src =
      some ⟨Shader.wrapLongitude (src.x +
              (Shader.rasterGetValuesQ u.imageUnscale colour).x * u.speedFactor),
            src.y + ((Shader.rasterGetValuesQ u.imageUnscale colour).y *
              u.speedFactor) * cosd src.y,
            colour.z⟩ := by
  simp only [Shader.main]
  rw [if_neg hAge, if_neg hSent, if_neg hZoom, if_neg hTick,
    if_neg (not_not_intro hDom), if_neg (not_not_intro hView), hCol,
    if_neg (not_not_intro hHas)]
  simp [Shader.updatedPosition]

theorem c1_witness :
    Shader.main (fun _ => 1) (fun _ => 0)
      ⟨1, 10, 1, 5, 0, ⟨-180, -90, 180, 90⟩, 0, ⟨-1, 1⟩, ⟨-180, -90, 180, 90⟩, 0⟩
      (fun _ => ⟨11/20, 1/2, 3/10, 1⟩) (fun _ => ⟨11/20, 1/2, 3/10, 1⟩)
      0 ⟨10, 0, 0⟩ =
      some ⟨101/10, 0, 3/10⟩ := by
  have h := c1_advect_distortion (fun _ => 1) (fun _ => 0)
    ⟨1, 10, 1, 5, 0, ⟨-180, -90, 180, 90⟩, 0, ⟨-1, 1⟩, ⟨-180, -90, 180, 90⟩, 0⟩
    (fun _ => ⟨11/20, 1/2, 3/10, 1⟩) (fun _ => ⟨11/20, 1/2, 3/10, 1⟩)
    0 ⟨10, 0, 0⟩ ⟨11/20, 1/2, 3/10, 1⟩
    (by norm_num [Shader.floorQ])
    (by norm_num)
    (by norm_num [Shader.glslMod, Shader.floorQ])
    (by norm_num [Shader.glslMod, Shader.floorQ])
    (by norm_num [Shader.isPositionInBounds, Shader.wrapLongitudeMin,
      Shader.wrapLongitude, Shader.glslMod, Shader.floorQ])
    (by norm_num [Shader.isPositionInViewport, Shader.isPositionInBounds,
      Shader.wrapLongitudeMin, Shader.wrapLongitude, Shader.glslMod,
      Shader.floorQ])
    (by norm_num [Shader.mix4, Shader.mixQ, Shader.Vec4.mk.injEq])
    (by norm_num [Shader.rasterHasValuesQ])
  rw [h]
  norm_num [Shader.wrapLongitude, Shader.glslMod, Shader.floorQ,
    Shader.rasterGetValuesQ, Shader.mixQ, Shader.Vec3.mk.injEq]

/-- C2 (confirmed): the rules of `main` short-circuit in order, so for every
invocation whose source position is outside the declared field domain bounds
(and for which the earlier rules 1–4 do not fire) the target record equals
the source record unchanged — with no hypothesis at all about the viewport,
so this holds in particular when the position is also outside the viewport
bounds (rule 6 never fires for it; see `c2_witness`). -/
theorem c2_out_of_domain_clamp (cosd sinq : ℚ → ℚ) (u : Shader.Uniforms)
    (tex texNext : Shader.Vec2 → Shader.Vec4) (vertexID : ℕ)
    (src : Shader.Vec3)
    (hAge : ¬ 0 < Shader.floorQ ((vertexID : ℚ) / u.numParticles))
    (hSent : ¬ (src.x = 0 ∧ src.y = 0))
    (hZoom : ¬ (1 < u.viewportZoomChangeFactor ∧
      1 ≤ Shader.glslMod (Shader.glslMod (vertexID : ℚ) u.numParticles)
        u.viewportZoomChangeFactor))
    (hTick : ¬ (|Shader.glslMod (Shader.glslMod (vertexID : ℚ) u.numParticles)
        (u.maxAge + 2) - Shader.glslMod u.time (u.maxAge + 2)| < 1))
    (hDom : ¬ Shader.isPositionInBounds ⟨src.x, src.y⟩ u.bounds) :
    Shader.main cosd sinq u tex texNext vertexID src = some src := by
  simp only [Shader.main]
  rw [if_neg hAge, if_neg hSent, if_neg hZoom, if_neg hTick, if_pos hDom]

theorem c2_witness :
    (¬ Shader.isPositionInBounds ⟨10, 95⟩
      (⟨-180, -90, 180, 90⟩ : Shader.Vec4)) ∧
    (¬ Shader.isPositionInViewport
      ⟨1, 10, 1, 5, 0, ⟨-180, -90, 180, 90⟩, 0, ⟨-1, 1⟩, ⟨-180, -90, 180, 90⟩, 0⟩
      ⟨10, 95⟩) ∧
    Shader.main (fun _ => 1) (fun _ => 0)
      ⟨1, 10, 1, 5, 0, ⟨-180, -90, 180, 90⟩, 0, ⟨-1, 1⟩, ⟨-180, -90, 180, 90⟩, 0⟩
      (fun _ => ⟨0, 0, 0, 0⟩) (fun _ => ⟨0, 0, 0, 0⟩) 0 ⟨10, 95, 1/4⟩ =
      some ⟨10, 95, 1/4⟩ :=
  ⟨by
    norm_num [Shader.isPositionInBounds, Shader.wrapLongitudeMin,
      Shader.wrapLongitude, Shader.glslMod, Shader.floorQ],
   by
    norm_num [Shader.isPositionInViewport, Shader.isPositionInBounds,
      Shader.wrapLongitudeMin, Shader.wrapLongitude, Shader.glslMod,
      Shader.floorQ],
   c2_out_of_domain_clamp (fun _ => 1) (fun _ => 0)
    ⟨1, 10, 1, 5, 0, ⟨-180, -90, 180, 90⟩, 0, ⟨-1, 1⟩, ⟨-180, -90, 180, 90⟩, 0⟩
    (fun _ => ⟨0, 0, 0, 0⟩) (fun _ => ⟨0, 0, 0, 0⟩) 0 ⟨10, 95, 1/4⟩
    (by norm_num [Shader.floorQ])
    (by norm_num)
    (by norm_num [Shader.glslMod, Shader.floorQ])
    (by norm_num [Shader.glslMod, Shader.floorQ])
    (by norm_num [Shader.isPositionInBounds, Shader.wrapLongitudeMin,
      Shader.wrapLongitude, Shader.glslMod, Shader.floorQ])⟩

/-- `const FPS = 30`. -/
def FPS : ℚ := 30

/-- Modelled from the spec for claim C7: a tick identifier computed from
wall-clock time divided by the fixed tick interval `1000 / FPS`
milliseconds.  The code's `_runTransformFeedback` performs no such division
(it compares the raw `timeline.getTime()` value); see `c7_counterexample`. -/
def claimedTickId (time : ℚ) : ℤ := ⌊time / (1000 / FPS)⌋

/-- A GPU position buffer: one three-float record per particle instance. -/
def Buf : Type := ℕ → Shader.Vec3

/-- A deck.gl async image prop: an unresolved URL string, a loaded
`Texture` (identified by an id), or null. -/
inductive ImageProp where
  | url : ImageProp
  | tex : ℕ → ImageProp
  | null : ImageProp
  deriving DecidableEq

/-- `image && typeof image !== "string"` — the loaded-texture case. -/
def ImageProp.asTexture : ImageProp → Option ℕ
  | .tex i => some i
  | _ => none

/-- The layer props consumed by the driver.  Numeric props that the code
tests for JS falsiness are `Option` (none = undefined). -/
structure Props where
  image : ImageProp
  imageNext : ImageProp
  blend : Option ℚ
  imageUnscale : Option Shader.Vec2
  numParticles : Option ℕ
  maxAge : Option ℕ
  speedFactor : ℚ
  color : ℚ × ℚ × ℚ × Option ℚ
  width : Option ℚ
  animate : Bool
  bounds : Shader.Vec4

/-- JS falsiness of a possibly-undefined count (`!numParticles`). -/
def falsyNum : Option ℕ → Bool
  | none => true
  | some n => n == 0

/-- JS falsiness of a possibly-undefined number (`!width`). -/
def falsyQ : Option ℚ → Bool
  | none => true
  | some q => q == 0

/-- `this.state` of the layer.  GPU-owned resources are `Option`: `none`
models a destroyed/undefined resource.  The `transform` payload is its
`vertexCount` (set to `numParticles` at setup). -/
structure LayerState where
  initialized : Bool
  numInstances : ℕ
  numAgedInstances : ℕ
  sourcePositions : Option Buf
  targetPositions : Option Buf
  colors : Option (ℕ → Shader.Vec4)
  transform : Option ℕ
  texture : Option ℕ
  textureNext : Option ℕ
  previousViewportZoom : ℚ
  previousTime : ℚ
  stepRequested : Bool

/-- Calling a method on an undefined GPU resource raises a TypeError. -/
def require {α : Type} : Option α → Except String α
  | some a => .ok a
  | none => .error "TypeError: method called on an undefined GPU resource"

/-- An all-zero buffer (`new Float32Array(numInstances * 3)`). -/
def zeroBuf : Buf := fun _ => ⟨0, 0, 0⟩

/-- The age-faded color buffer built in `_setupTransformFeedback`:
`[color[0], color[1], color[2], (color[3] ?? 255) * (1 - age/maxAge)]`,
each channel divided by 255, where `age = Math.floor(i / numParticles)`. -/
def colorBuffer (color : ℚ × ℚ × ℚ × Option ℚ) (numParticles maxAge : ℕ) :
    ℕ → Shader.Vec4 :=
  fun i =>
    let age : ℕ := i / numParticles
    ⟨color.1 / 255, color.2.1 / 255, color.2.2.1 / 255,
     color.2.2.2.getD 255 * (1 - (age : ℚ) / (maxAge : ℚ)) / 255⟩

/-- `_deleteTransformFeedback()`: a guarded no-op when uninitialized;
otherwise destroys both position buffers, the color buffer and the
transform, and resets the state fields to undefined. -/
def deleteTransformFeedback (st : LayerState) : Except String LayerState :=
  if st.initialized = false then .ok st
  else do
    let _ ← require st.sourcePositions
    let _ ← require st.targetPositions
    let _ ← require st.colors
    let _ ← require st.transform
    .ok { st with initialized := false, sourcePositions := none,
                  targetPositions := none, colors := none, transform := none }

/-- `_setupTransformFeedback()`: tears down first if initialized; defers
(returns unchanged) while the primary image is still a URL string or null;
otherwise allocates the buffer pair, the color buffer and the transform
(vertexCount = numParticles) and becomes initialized.  The `numParticles`
and `maxAge` props are guaranteed truthy at every call site (`updateState`
tears down on falsy values before reaching setup), so `getD 0` is never the
value actually used. -/
def setupTransformFeedback (p : Props) (st : LayerState) :
    Except String LayerState := do
  let st ← if st.initialized = true then deleteTransformFeedback st else .ok st
  match p.image.asTexture with
  | none => .ok st
  | some imageId =>
    let textureNextId := p.imageNext.asTexture.getD imageId
    let numParticles := p.numParticles.getD 0
    let maxAge := p.maxAge.getD 0
    .ok { initialized := true
          numInstances := numParticles * maxAge
          numAgedInstances := numParticles * (maxAge - 1)
          sourcePositions := some zeroBuf
          targetPositions := some zeroBuf
          colors := some (colorBuffer p.color numParticles maxAge)
          transform := some numParticles
          texture := some imageId
          textureNext := some textureNextId
          previousViewportZoom := 0
          previousTime := 0
          stepRequested := false }

/-- `updateState(...)` after the `super` call: tear down on falsy structural
props; before first setup, set up once the image is a real texture;
rebuild on structural changes; otherwise just adopt newly loaded textures. -/
def updateState (p pOld : Props) (st : LayerState) : Except String LayerState :=
  if falsyNum p.numParticles || falsyNum p.maxAge || falsyQ p.width then
    deleteTransformFeedback st
  else if st.initialized = false then
    if p.image.asTexture.isSome then setupTransformFeedback p st else .ok st
  else if p.numParticles ≠ pOld.numParticles ∨ p.maxAge ≠ pOld.maxAge ∨
      p.width ≠ pOld.width then
    setupTransformFeedback p st
  else
    let st1 := match p.image.asTexture with
      | some i => if p.image ≠ pOld.image then { st with texture := some i } else st
      | none => st
    let st2 := match p.imageNext.asTexture with
      | some i =>
        if p.imageNext ≠ pOld.imageNext then { st1 with textureNext := some i }
        else st1
      | none => st1
    .ok st2

/-- `getViewportBounds(viewport)`: wrap the viewport's bounding box. -/
def getViewportBounds (viewportGetBounds : ℚ × ℚ × ℚ × ℚ) : ℚ × ℚ × ℚ × ℚ :=
  TS.wrapBounds viewportGetBounds

/-- The `moduleUniforms` marshaled by `_runTransformFeedback`.  `pow2`
models `x ↦ 2 ** x`; `viewportBounds || [0,0,0,0]` and
`viewportZoomChangeFactor || 0` are identities here (an array is always
truthy, and `|| 0` fixes only the value 0 itself, or NaN which exact
rationals do not produce). -/
def tickUniforms (pow2 : ℚ → ℚ) (p : Props) (viewportBoundsIn : ℚ × ℚ × ℚ × ℚ)
    (zoom previousViewportZoom time seed : ℚ) : Shader.Uniforms :=
  let vb := getViewportBounds viewportBoundsIn
  let viewportZoomChangeFactor := pow2 ((previousViewportZoom - zoom) * 4)
  let currentSpeedFactor := p.speedFactor / pow2 (zoom + 7)
  { numParticles := (p.numParticles.getD 0 : ℚ)
    maxAge := (p.maxAge.getD 0 : ℚ)
    speedFactor := currentSpeedFactor
    time := time
    seed := seed
    viewportBounds := ⟨vb.1, vb.2.1, vb.2.2.1, vb.2.2.2⟩
    viewportZoomChangeFactor := viewportZoomChangeFactor
    imageUnscale := p.imageUnscale.getD ⟨0, 0⟩
    bounds := p.bounds
    blend := p.blend.getD 0 }

/-- `transform.run(...)`: one shader invocation per vertex,
`vertexCount = numParticles`; every invocation writes its `targetPosition`
varying into the feedback buffer.  The `getD` fallback stands for the
undefined value captured when the shader returns without assigning the
varying (rule 1) — unreachable here, since every index below
`numParticles` has particle age 0. -/
def transformWrite (cosd sinq : ℚ → ℚ) (u : Shader.Uniforms)
    (tex texNext : Shader.Vec2 → Shader.Vec4) (vertexCount : ℕ)
    (src tgt : Buf) : Buf :=
  fun i =>
    if i < vertexCount then (Shader.main cosd sinq u tex texNext i (src i)).getD (tgt i)
    else tgt i

/-- `encoder.copyBufferToBuffer(...)`: copy `numAgedInstances` records from
the start of the source buffer into the target buffer at an offset of
`numParticles` records (the code's offsets are in bytes; one record is
3 floats = 12 bytes). -/
def cohortShift (numParticles numAgedInstances : ℕ) (src base : Buf) : Buf :=
  fun i =>
    if numParticles ≤ i ∧ i < numParticles + numAgedInstances then
      src (i - numParticles)
    else base i

/-- `_runTransformFeedback()`: guarded on `initialized`; skips when the
timeline time equals the previously recorded time; otherwise marshals
uniforms, runs the transform into the target buffer, copies the aged
cohorts, swaps the buffer roles and records the new zoom and time.
`sampler` maps a texture id to its sampling function; `zoom`/`time`/`seed`
are `viewport.zoom`, `timeline.getTime()` and `Math.random()`. -/
def runTransformFeedback (cosd sinq pow2 : ℚ → ℚ)
    (sampler : ℕ → Shader.Vec2 → Shader.Vec4) (p : Props)
    (viewportBoundsIn : ℚ × ℚ × ℚ × ℚ) (zoom time seed : ℚ)
    (st : LayerState) : Except String LayerState :=
  if st.initialized = false then .ok st
  else if time = st.previousTime then .ok st
  else do
    let vertexCount ← require st.transform
    let src ← require st.sourcePositions
    let tgt ← require st.targetPositions
    let textureId ← require st.texture
    let u := tickUniforms pow2 p viewportBoundsIn zoom st.previousViewportZoom
      time seed
    let tex := sampler textureId
    let texNext := sampler (st.textureNext.getD textureId)
    let newTarget := transformWrite cosd sinq u tex texNext vertexCount src tgt
    let afterCopy := cohortShift (p.numParticles.getD 0) st.numAgedInstances
      src newTarget
    .ok { st with sourcePositions := some afterCopy
                  targetPositions := some src
                  previousViewportZoom := zoom
                  previousTime := time }

/-- `_resetTransformFeedback()`: guarded on `initialized`; writes zeros over
both position buffers. -/
def resetTransformFeedback (st : LayerState) : Except String LayerState :=
  if st.initialized = false then .ok st
  else do
    let _ ← require st.sourcePositions
    let _ ← require st.targetPositions
    .ok { st with sourcePositions := some zeroBuf, targetPositions := some zeroBuf }

/-- `requestStep()`: sets the pending flag once; the deferred `step()` call
it schedules runs asynchronously later and is not part of this state
transition. -/
def requestStep (st : LayerState) : LayerState :=
  if st.stepRequested then st
  else { st with stepRequested := true }

/-- `draw({uniforms})`: guarded on `initialized` (returns without touching
any buffer and without emitting a draw call, the `Bool` result); otherwise
binds the buffer attributes, delegates to the line layer, and requests an
animation step when `animate` is set. -/
def draw (animate : Bool) (st : LayerState) : Except String (LayerState × Bool) :=
  if st.initialized = false then .ok (st, false)
  else do
    let _ ← require st.sourcePositions
    let _ ← require st.targetPositions
    let _ ← require st.colors
    let st1 := if animate then requestStep st else st
    .ok (st1, true)

/-- `step()`: run the transform tick, then request a host repaint
(`setNeedsRedraw`, no layer-state effect). -/
def step (cosd sinq pow2 : ℚ → ℚ) (sampler : ℕ → Shader.Vec2 → Shader.Vec4)
    (p : Props) (viewportBoundsIn : ℚ × ℚ × ℚ × ℚ) (zoom time seed : ℚ)
    (st : LayerState) : Except String LayerState :=
  runTransformFeedback cosd sinq pow2 sampler p viewportBoundsIn zoom time seed st

/-- `clear()`: reset all particles, then request a host repaint. -/
def clear (st : LayerState) : Except String LayerState :=
  resetTransformFeedback st

theorem runTransformFeedback_uninit (cosd sinq pow2 : ℚ → ℚ)
    (sampler : ℕ → Shader.Vec2 → Shader.Vec4) (p : Props)
    (vb : ℚ × ℚ × ℚ × ℚ) (zoom time seed : ℚ) (st : LayerState)
    (hi : st.initialized = false) :
    runTransformFeedback cosd sinq pow2 sampler p vb zoom time seed st = .ok st := by
  unfold runTransformFeedback
  rw [if_pos hi]

theorem runTransformFeedback_skip (cosd sinq pow2 : ℚ → ℚ)
    (sampler : ℕ → Shader.Vec2 → Shader.Vec4) (p : Props)
    (vb : ℚ × ℚ × ℚ × ℚ) (zoom time seed : ℚ) (st : LayerState)
    (ht : time = st.previousTime) :
    runTransformFeedback cosd sinq pow2 sampler p vb zoom time seed st = .ok st := by
  unfold runTransformFeedback
  by_cases hi : st.initialized = false
  · rw [if_pos hi]
  · rw [if_neg hi, if_pos ht]

theorem runTransformFeedback_ok (cosd sinq pow2 : ℚ → ℚ)
    (sampler : ℕ → Shader.Vec2 → Shader.Vec4) (p : Props)
    (vb : ℚ × ℚ × ℚ × ℚ) (zoom time seed : ℚ) (st : LayerState)
    (hi : st.initialized = true) (ht : ¬ time = st.previousTime)
    (vc : ℕ) (src tgt : Buf) (texId : ℕ)
    (h1 : st.transform = some vc) (h2 : st.sourcePositions = some src)
    (h3 : st.targetPositions = some tgt) (h4 : st.texture = some texId) :
    runTransformFeedback cosd sinq pow2 sampler p vb zoom time seed st =
      .ok { st with
        sourcePositions := some (cohortShift (p.numParticles.getD 0)
          st.numAgedInstances src
          (transformWrite cosd sinq
            (tickUniforms pow2 p vb zoom st.previousViewportZoom time seed)
            (sampler texId) (sampler (st.textureNext.getD texId)) vc src tgt))
        targetPositions := some src
        previousViewportZoom := zoom
        previousTime := time } := by
  unfold runTransformFeedback
  rw [if_neg (by simp [hi]), if_neg ht, h1, h2, h3, h4]
  rfl

/-- C7 (corrected): the tick identifier that `_runTransformFeedback`
compares is the raw timeline time (`time === previousTime`) — there is no
division by the 1/30-second tick interval (that interval only paces the
`setTimeout` in `requestStep`).  With that identifier the idempotence holds
exactly as claimed: a run whose time equals the recorded previous time is a
complete no-op, and re-running a finished tick with the same time changes
nothing, whatever the other per-tick inputs are. -/
theorem c7_tick_idempotent (cosd sinq pow2 : ℚ → ℚ)
    (sampler : ℕ → Shader.Vec2 → Shader.Vec4) (p : Props)
    (vb : ℚ × ℚ × ℚ × ℚ) (zoom time seed : ℚ) (st : LayerState) :
    (time = st.previousTime →
      runTransformFeedback cosd sinq pow2 sampler p vb zoom time seed st = .ok st) ∧
    (∀ st2, runTransformFeedback cosd sinq pow2 sampler p vb zoom time seed st =
        .ok st2 →
      ∀ cosd2 sinq2 pow22 : ℚ → ℚ, ∀ sampler2 : ℕ → Shader.Vec2 → Shader.Vec4,
      ∀ p2 : Props, ∀ vb2 : ℚ × ℚ × ℚ × ℚ, ∀ zoom2 seed2 : ℚ,
        runTransformFeedback cosd2 sinq2 pow22 sampler2 p2 vb2 zoom2 time seed2 st2 =
          .ok st2) := by
  constructor
  · exact fun h => runTransformFeedback_skip cosd sinq pow2 sampler p vb zoom time seed st h
  · intro st2 hrun cosd2 sinq2 pow22 sampler2 p2 vb2 zoom2 seed2
    by_cases hi : st.initialized = false
    · rw [runTransformFeedback_uninit cosd sinq pow2 sampler p vb zoom time seed st hi]
        at hrun
      injection hrun with h
      subst h
      exact runTransformFeedback_uninit cosd2 sinq2 pow22 sampler2 p2 vb2 zoom2
        time seed2 st hi
    · by_cases ht : time = st.previousTime
      · rw [runTransformFeedback_skip cosd sinq pow2 sampler p vb zoom time seed st ht]
          at hrun
        injection hrun with h
        subst h
        exact runTransformFeedback_skip cosd2 sinq2 pow22 sampler2 p2 vb2 zoom2
          time seed2 st ht
      · have hi2 : st.initialized = true := by
          cases hb : st.initialized
          · exact absurd hb hi
          · rfl
        rcases h1 : st.transform with _ | vc
        · unfold runTransformFeedback at hrun
          rw [if_neg hi, if_neg ht, h1] at hrun
          exact Except.noConfusion hrun
        · rcases h2 : st.sourcePositions with _ | src
          · unfold runTransformFeedback at hrun
            rw [if_neg hi, if_neg ht, h1, h2] at hrun
            exact Except.noConfusion hrun
          · rcases h3 : st.targetPositions with _ | tgt
            · unfold runTransformFeedback at hrun
              rw [if_neg hi, if_neg ht, h1, h2, h3] at hrun
              exact Except.noConfusion hrun
            · rcases h4 : st.texture with _ | texId
              · unfold runTransformFeedback at hrun
                rw [if_neg hi, if_neg ht, h1, h2, h3, h4] at hrun
                exact Except.noConfusion hrun
              · rw [runTransformFeedback_ok cosd sinq pow2 sampler p vb zoom time
                  seed st hi2 ht vc src tgt texId h1 h2 h3 h4] at hrun
                injection hrun with h
                subst h
                exact runTransformFeedback_skip cosd2 sinq2 pow22 sampler2 p2 vb2
                  zoom2 time seed2 _ rfl

/-- A small concrete layer state (numParticles = 2, maxAge = 3; source
buffer holds record ⟨i, 0, 0⟩ at index i) used by concrete instances. -/
def stDemo : LayerState :=
  { initialized := true
    numInstances := 6
    numAgedInstances := 4
    sourcePositions := some (fun i => ⟨(i : ℚ), 0, 0⟩)
    targetPositions := some zeroBuf
    colors := some (colorBuffer (255, 255, 255, some 255) 2 3)
    transform := some 2
    texture := some 0
    textureNext := some 0
    previousViewportZoom := 0
    previousTime := 0
    stepRequested := false }

/-- Concrete props matching `stDemo`. -/
def pDemo : Props :=
  { image := .tex 0
    imageNext := .tex 0
    blend := some 0
    imageUnscale := some ⟨-1, 1⟩
    numParticles := some 2
    maxAge := some 3
    speedFactor := 1
    color := (255, 255, 255, some 255)
    width := some 1
    animate := true
    bounds := ⟨-180, -90, 180, 90⟩ }

theorem c7_witness :
    runTransformFeedback (fun _ => 1) (fun _ => 0) (fun _ => 1)
      (fun _ _ => ⟨0, 0, 0, 0⟩) pDemo (-180, -90, 180, 90) 1 0 0 stDemo =
      .ok stDemo :=
  (c7_tick_idempotent (fun _ => 1) (fun _ => 0) (fun _ => 1)
    (fun _ _ => ⟨0, 0, 0, 0⟩) pDemo (-180, -90, 180, 90) 1 0 0 stDemo).1 rfl

/-- C7 counterexample: the times 50 ms and 60 ms fall in the same 1/30 s
frame, so the claimed tick identifier `⌊t / (1000/FPS)⌋` is unchanged — yet
running the tick at time 60 after a tick at time 50 is not a no-op: the
recorded previous time (driver state) changes to 60. -/
theorem c7_counterexample :
    claimedTickId 50 = claimedTickId 60 ∧
    (runTransformFeedback (fun _ => 1) (fun _ => 0) (fun _ => 1)
        (fun _ _ => ⟨0, 0, 0, 0⟩) pDemo (-180, -90, 180, 90) 1 60 0
        { stDemo with previousTime := 50 }).map (fun s => s.previousTime) =
      .ok 60 ∧
    (60 : ℚ) ≠ 50 := by
  refine ⟨by norm_num [claimedTickId, FPS], ?_, by norm_num⟩
  rw [runTransformFeedback_ok (fun _ => 1) (fun _ => 0) (fun _ => 1)
    (fun _ _ => ⟨0, 0, 0, 0⟩) pDemo (-180, -90, 180, 90) 1 60 0
    { stDemo with previousTime := 50 } rfl (by norm_num) 2
    (fun i => ⟨(i : ℚ), 0, 0⟩) zeroBuf 0 rfl rfl rfl rfl]
  rfl

/-- C8 (confirmed): on a successful tick the driver copies exactly
`numParticles × (maxAge − 1)` records from the start of the pre-swap source
buffer into the target buffer at an offset of one cohort (`numParticles`
records), then swaps the buffer roles without copying: afterwards the new
source buffer holds, at age k+1, the data that had age k (for every
k < maxAge − 1), the oldest cohort is discarded (every slot is covered by
the copy or the fresh write), cohort 0 holds the records the transform just
computed, and the new target buffer is the old source buffer itself. -/
theorem c8_cohort_shift (cosd sinq pow2 : ℚ → ℚ)
    (sampler : ℕ → Shader.Vec2 → Shader.Vec4) (p : Props)
    (vb : ℚ × ℚ × ℚ × ℚ) (zoom time seed : ℚ) (st : LayerState)
    (N A vc texId : ℕ) (src tgt : Buf)
    (hi : st.initialized = true) (ht : ¬ time = st.previousTime)
    (hN : p.numParticles = some N) (hA : p.maxAge = some A)
    (htr : st.transform = some vc) (hsrc : st.sourcePositions = some src)
    (htgt : st.targetPositions = some tgt) (htex : st.texture = some texId)
    (hAged : st.numAgedInstances = N * (A - 1)) :
    ∃ newSrc : Buf,
      runTransformFeedback cosd sinq pow2 sampler p vb zoom time seed st =
        .ok { st with
          sourcePositions := some newSrc
          targetPositions := some src
          previousViewportZoom := zoom
          previousTime := time } ∧
      (∀ k j : ℕ, k + 1 < A → j < N →
        newSrc ((k + 1) * N + j) = src (k * N + j)) ∧
      (∀ j : ℕ, j < N → j < vc →
        newSrc j = (Shader.main cosd sinq
          (tickUniforms pow2 p vb zoom st.previousViewportZoom time seed)
          (sampler texId) (sampler (st.textureNext.getD texId)) j
          (src j)).getD (tgt j)) := by
  refine ⟨_, runTransformFeedback_ok cosd sinq pow2 sampler p vb zoom time seed st
    hi ht vc src tgt texId htr hsrc htgt htex, ?_, ?_⟩
  · intro k j hk hj
    simp only [hN, Option.getD_some, cohortShift]
    rw [hAged, Nat.succ_mul]
    have e2 : N * (k + 1) ≤ N * (A - 1) := Nat.mul_le_mul_left N (by omega)
    have e3 : N * (k + 1) = k * N + N := by rw [Nat.mul_succ, Nat.mul_comm]
    rw [if_pos (by omega)]
    congr 1
    omega
  · intro j hjN hjvc
    simp only [hN, Option.getD_some, cohortShift, transformWrite]
    rw [if_neg (by omega), if_pos hjvc]

theorem c8_witness :
    (runTransformFeedback (fun _ => 1) (fun _ => 0) (fun _ => 1)
        (fun _ _ => ⟨0, 0, 0, 0⟩) pDemo (-180, -90, 180, 90) 1 7 0 stDemo).map
      (fun s => s.sourcePositions.map (fun b => (b 5, b 3))) =
      .ok (some (⟨3, 0, 0⟩, ⟨1, 0, 0⟩)) := by
  obtain ⟨b, heq, hshift, hfresh⟩ := c8_cohort_shift (fun _ => 1) (fun _ => 0)
    (fun _ => 1) (fun _ _ => ⟨0, 0, 0, 0⟩) pDemo (-180, -90, 180, 90) 1 7 0
    stDemo 2 3 2 0 (fun i => ⟨(i : ℚ), 0, 0⟩) zeroBuf rfl (by norm_num [stDemo])
    rfl rfl rfl rfl rfl rfl rfl
  rw [heq]
  have h1 : b 5 = ⟨3, 0, 0⟩ := by simpa using hshift 1 1 (by norm_num) (by norm_num)
  have h2 : b 3 = ⟨1, 0, 0⟩ := by simpa using hshift 0 1 (by norm_num) (by norm_num)
  simp [Except.map, h1, h2]

/-- The state well-formedness the layer maintains: when initialized, the
four GPU resources exist; when uninitialized, they are all undefined
(`initializeState` starts this way, and every transition preserves it). -/
def wellFormed (st : LayerState) : Prop :=
  (st.initialized = true →
    st.sourcePositions.isSome ∧ st.targetPositions.isSome ∧
    st.colors.isSome ∧ st.transform.isSome) ∧
  (st.initialized = false →
    st.sourcePositions = none ∧ st.targetPositions = none ∧
    st.colors = none ∧ st.transform = none)

/-- C9 (confirmed): when `updateState` runs with a falsy particle count, max
age or width, all GPU-owned state (both position buffers, the color buffer
and the transform) is destroyed, the layer becomes uninitialized, no
exception is raised (the result is `.ok`), no setup runs (the update is
exactly the teardown), and on the resulting state the tick operation is a
guarded no-op for every input until valid parameters arrive. -/
theorem c9_invalid_teardown (p pOld : Props) (st : LayerState)
    (hbad : (falsyNum p.numParticles || falsyNum p.maxAge || falsyQ p.width) = true)
    (hwf : wellFormed st) :
    ∃ st2, updateState p pOld st = .ok st2 ∧
      st2.initialized = false ∧
      st2.sourcePositions = none ∧ st2.targetPositions = none ∧
      st2.colors = none ∧ st2.transform = none ∧
      ∀ cosd sinq pow2 : ℚ → ℚ, ∀ sampler : ℕ → Shader.Vec2 → Shader.Vec4,
      ∀ p2 : Props, ∀ vb : ℚ × ℚ × ℚ × ℚ, ∀ zoom time seed : ℚ,
        runTransformFeedback cosd sinq pow2 sampler p2 vb zoom time seed st2 =
          .ok st2 := by
  have hupd : updateState p pOld st = deleteTransformFeedback st := by
    unfold updateState
    rw [if_pos hbad]
  by_cases hi : st.initialized = false
  · have hn := hwf.2 hi
    have hdel : deleteTransformFeedback st = .ok st := by
      unfold deleteTransformFeedback
      rw [if_pos hi]
    exact ⟨st, hupd.trans hdel, hi, hn.1, hn.2.1, hn.2.2.1, hn.2.2.2,
      fun cosd sinq pow2 sampler p2 vb zoom time seed =>
        runTransformFeedback_uninit cosd sinq pow2 sampler p2 vb zoom time seed st hi⟩
  · have hi2 : st.initialized = true := by
      cases hb : st.initialized
      · exact absurd hb hi
      · rfl
    obtain ⟨hs, htg, hc, htr⟩ := hwf.1 hi2
    rcases hsp : st.sourcePositions with _ | src
    · rw [hsp] at hs
      simp at hs
    rcases htp : st.targetPositions with _ | tgt
    · rw [htp] at htg
      simp at htg
    rcases hcp : st.colors with _ | cols
    · rw [hcp] at hc
      simp at hc
    rcases htrp : st.transform with _ | vc
    · rw [htrp] at htr
      simp at htr
    have hdel : deleteTransformFeedback st = .ok { st with
        initialized := false
        sourcePositions := none
        targetPositions := none
        colors := none
        transform := none } := by
      unfold deleteTransformFeedback
      rw [if_neg (by simp [hi2]), hsp, htp, hcp, htrp]
      rfl
    exact ⟨_, hupd.trans hdel, rfl, rfl, rfl, rfl, rfl,
      fun cosd sinq pow2 sampler p2 vb zoom time seed =>
        runTransformFeedback_uninit cosd sinq pow2 sampler p2 vb zoom time seed _ rfl⟩

theorem c9_witness :
    (updateState { pDemo with numParticles := some 0 } pDemo stDemo).map
      (fun s => (s.initialized, s.sourcePositions.isSome, s.targetPositions.isSome,
        s.colors.isSome, s.transform.isSome)) =
      .ok (false, false, false, false, false) := by
  obtain ⟨st2, heq, h1, h2, h3, h4, h5, _⟩ :=
    c9_invalid_teardown { pDemo with numParticles := some 0 } pDemo stDemo rfl
      ⟨fun _ => ⟨rfl, rfl, rfl, rfl⟩, fun h => Bool.noConfusion h⟩
  rw [heq]
  simp [Except.map, h1, h2, h3, h4, h5]

/-- C10 (confirmed): while the layer is uninitialized, every externally
reachable operation is a guarded no-op that checks the flag first: the tick
(`step`, via `_runTransformFeedback`), `clear` (via
`_resetTransformFeedback`), `draw` (which also emits no draw call, the
`false` component) and teardown (`_deleteTransformFeedback`) each return the
state unchanged and raise no error — no buffer is read, written or
destroyed. -/
theorem c10_uninitialized_noop (st : LayerState) (hi : st.initialized = false) :
    (∀ cosd sinq pow2 : ℚ → ℚ, ∀ sampler : ℕ → Shader.Vec2 → Shader.Vec4,
     ∀ p : Props, ∀ vb : ℚ × ℚ × ℚ × ℚ, ∀ zoom time seed : ℚ,
      runTransformFeedback cosd sinq pow2 sampler p vb zoom time seed st = .ok st) ∧
    resetTransformFeedback st = .ok st ∧
    (∀ cosd sinq pow2 : ℚ → ℚ, ∀ sampler : ℕ → Shader.Vec2 → Shader.Vec4,
     ∀ p : Props, ∀ vb : ℚ × ℚ × ℚ × ℚ, ∀ zoom time seed : ℚ,
      step cosd sinq pow2 sampler p vb zoom time seed st = .ok st) ∧
    clear st = .ok st ∧
    (∀ animate, draw animate st = .ok (st, false)) ∧
    deleteTransformFeedback st = .ok st := by
  have hreset : resetTransformFeedback st = .ok st := by
    unfold resetTransformFeedback
    rw [if_pos hi]
  refine ⟨fun cosd sinq pow2 sampler p vb zoom time seed =>
      runTransformFeedback_uninit cosd sinq pow2 sampler p vb zoom time seed st hi,
    hreset,
    fun cosd sinq pow2 sampler p vb zoom time seed =>
      runTransformFeedback_uninit cosd sinq pow2 sampler p vb zoom time seed st hi,
    hreset, ?_, ?_⟩
  · intro animate
    unfold draw
    rw [if_pos hi]
  · unfold deleteTransformFeedback
    rw [if_pos hi]

/-- The idle (uninitialized) layer state, as after `initializeState` or a
teardown. -/
def stIdle : LayerState :=
  { initialized := false
    numInstances := 0
    numAgedInstances := 0
    sourcePositions := none
    targetPositions := none
    colors := none
    transform := none
    texture := none
    textureNext := none
    previousViewportZoom := 0
    previousTime := 0
    stepRequested := false }

theorem c10_witness :
    runTransformFeedback (fun _ => 1) (fun _ => 0) (fun _ => 1)
      (fun _ _ => ⟨0, 0, 0, 0⟩) pDemo (-180, -90, 180, 90) 1 7 0 stIdle =
      .ok stIdle ∧
    resetTransformFeedback stIdle = .ok stIdle ∧
    draw true stIdle = .ok (stIdle, false) ∧
    deleteTransformFeedback stIdle = .ok stIdle :=
  ⟨(c10_uninitialized_noop stIdle rfl).1 (fun _ => 1) (fun _ => 0) (fun _ => 1)
      (fun _ _ => ⟨0, 0, 0, 0⟩) pDemo (-180, -90, 180, 90) 1 7 0,
   (c10_uninitialized_noop stIdle rfl).2.1,
   (c10_uninitialized_noop stIdle rfl).2.2.2.2.1 true,
   (c10_uninitialized_noop stIdle rfl).2.2.2.2.2⟩
